import Mathlib

/-!
Verification of the Prescription Analysis and Multi-Disease Risk Pipeline
of the clinical-decision-support-system repository.

The frontend React sources (Prescription4all.jsx, Doctor.jsx, the
receptionist portal) are embedded directly.  The FastAPI backend
(feature extractor, disease prediction orchestrator, persistence and
dedup service, history pagination) is not part of the source tree, so
those components are modelled from the specification; each such
definition carries a doc comment starting with the words
`Modelled from the spec`.
-/

namespace CDSS

/-! ## Data model -/

/-- The four supported diseases. -/
inductive Disease
  | obesity
  | diabetes
  | hypertension
  | liver
deriving DecidableEq, Repr

/-- Clinical features an ExtractedClinicalRecord can carry (vitals). -/
inductive Feature
  | age
  | gender
  | height_cm
  | weight_kg
  | bmi
  | bp_systolic
  | bp_diastolic
  | glucose
  | liver_panel
deriving DecidableEq, Repr

/-- One per-disease prediction envelope as returned by the pipeline:
`prediction` is a disease-specific integer code with `-1` meaning
insufficient input features; `confidence` and `future_risk` are numeric
scores or null; `features_used` is the exact feature vector consumed. -/
structure DiseasePrediction where
  prediction : Int
  confidence : Option ℚ
  future_risk : Option ℚ
  features_used : List (Feature × ℚ)
deriving DecidableEq, Repr

/-- The insufficient-data envelope emitted when a required feature is
missing. -/
def insufficientPrediction : DiseasePrediction :=
  { prediction := -1, confidence := none, future_risk := none, features_used := [] }

/-- A JavaScript value as it reaches the frontend display helpers:
a number, a string, or an absent value (null / undefined). -/
inductive JSValue
  | num (q : ℚ)
  | str (s : String)
  | absent
deriving DecidableEq, Repr

/-! ## Label helpers (identical in Prescription4all.jsx, Doctor.jsx and
the receptionist portal) -/

/-- `obesityLabel` from the frontend label helpers. -/
def obesityLabel (p : Int) : String :=
  if p = -1 then "Insufficient Data"
  else if p = 0 then "Normal weight"
  else if p = 1 then "Obese"
  else if p = 2 then "Overweight"
  else if p = 3 then "Underweight"
  else "Unknown"

/-- `liverLabel` from the frontend label helpers. -/
def liverLabel (p : Int) : String :=
  if p = -1 then "Insufficient Data"
  else if p = 1 then "Liver Disease Detected"
  else if p = 0 then "No Liver Disease"
  else "Unknown"

/-- `hypertensionLabel` from the frontend label helpers. -/
def hypertensionLabel (p : Int) : String :=
  if p = -1 then "Insufficient Data"
  else if p = 1 then "High Cardiovascular Risk"
  else if p = 0 then "Low Cardiovascular Risk"
  else "Unknown"

/-- `diabetesLabel` from the frontend label helpers. -/
def diabetesLabel (p : Int) : String :=
  if p = -1 then "Insufficient Data"
  else if p = 1 then "Diabetes Detected"
  else if p = 0 then "No Diabetes"
  else "Unknown"

/-! ## JavaScript string primitives used by the display helpers -/

/-- ASCII lowercasing of one character, as toLowerCase acts on the
ASCII inputs the gender field carries. -/
def asciiLower (c : Char) : Char :=
  if c.toNat ≥ 65 ∧ c.toNat ≤ 90 then Char.ofNat (c.toNat + 32) else c

/-- JavaScript toLowerCase. -/
def jsLower (s : String) : String := String.mk (s.data.map asciiLower)

/-- JavaScript startsWith with a one-character prefix: the first
character of the string is that character. -/
def headIs (s : String) (c : Char) : Bool := s.data.head? = some c

/-- Whitespace as JavaScript trim removes it. -/
def isJsSpace (c : Char) : Bool := c = ' ' ∨ c = '\t' ∨ c = '\n' ∨ c = '\r'

/-- JavaScript trim: whitespace stripped from both ends. -/
def jsTrim (s : String) : String :=
  String.mk (((s.data.dropWhile isJsSpace).reverse.dropWhile isJsSpace).reverse)

/-! ## Display normalization helpers -/

/-- JavaScript `Math.round`: rounds to the nearest integer, halves
toward positive infinity. -/
def jsRound (q : ℚ) : Int := ⌊q + 1/2⌋

/-- Rendering of an integer percentage, as produced by the template
string of the frontend. -/
def percentString (n : Int) : String := toString n ++ "%"

namespace Patient

/-- `safePercent` from Prescription4all.jsx (patient portal): null,
undefined and non-numbers render as a placeholder; a number above 1 is
treated as an already-scaled percentage; a number at most 1 (including
0) is treated as a probability and multiplied by 100. -/
def safePercent : Option ℚ → String
  | none => "No data"
  | some v => if 1 < v then percentString (jsRound v) else percentString (jsRound (v * 100))

/-- `safeText` from Prescription4all.jsx (patient portal). -/
def safeText : JSValue → JSValue
  | .absent => .str "No data"
  | .num q => if q = -1 then .str "No data" else .num q
  | .str s => .str s

end Patient

namespace Doctor

/-- `safePercent` from Doctor.jsx. -/
def safePercent : Option ℚ → String
  | none => "—"
  | some v => if 1 < v then percentString (jsRound v) else percentString (jsRound (v * 100))

/-- `safeText` from Doctor.jsx. -/
def safeText : JSValue → JSValue
  | .absent => .str "—"
  | .num q => if q = -1 then .str "—" else .num q
  | .str s => .str s

/-- `formatGender` from Doctor.jsx: null and undefined give a
placeholder; the strings "0" and "1" and the numbers 0 and 1 give
Male and Female; other strings are lowercased, trimmed and matched on
the prefixes m and f; everything else gives Other. -/
def formatGender : JSValue → String
  | .absent => "N/A"
  | .str s =>
      if s = "0" then "Male"
      else if s = "1" then "Female"
      else
        let v := jsTrim (jsLower s)
        if headIs v 'm' then "Male"
        else if headIs v 'f' then "Female"
        else "Other"
  | .num n =>
      if n = 0 then "Male"
      else if n = 1 then "Female"
      else "Other"

end Doctor

namespace Receptionist

/-- `formatGender` from the receptionist portal: null and undefined
give a placeholder; a string is lowercased and matched on the prefixes
m and f, any other string is returned unchanged; the numbers 0 and 1
give Male and Female; everything else gives Other. -/
def formatGender : JSValue → String
  | .absent => "N/A"
  | .str s =>
      if headIs (jsLower s) 'm' then "Male"
      else if headIs (jsLower s) 'f' then "Female"
      else s
  | .num n =>
      if n = 0 then "Male"
      else if n = 1 then "Female"
      else "Other"

end Receptionist

/-! ## Disease prediction grids of the upload result views -/

/-- The four grid slots in the order the Prescription4all and
receptionist upload-result views list them. -/
def gridOrder : List Disease :=
  [Disease.obesity, Disease.diabetes, Disease.liver, Disease.hypertension]

/-- The diseases for which the upload-result grid actually renders a
DiseaseCard: the source guards every card with a check that the
prediction is not -1. -/
def renderedGrid (env : Disease → DiseasePrediction) : List Disease :=
  gridOrder.filter (fun d => (env d).prediction ≠ -1)

/-! ## Disease prediction orchestrator (backend, not in src) -/

/-- Modelled from the spec: the static feature-requirement list the
Disease Prediction Orchestrator keeps per disease (obesity needs age,
gender, height, weight; diabetes needs age, gender, BMI and
glucose-related vitals; hypertension needs age and the BP pair; liver
needs age, gender and liver-panel vitals). -/
def requiredFeatures : Disease → List Feature
  | .obesity => [.age, .gender, .height_cm, .weight_kg]
  | .diabetes => [.age, .gender, .bmi, .glucose]
  | .hypertension => [.age, .bp_systolic, .bp_diastolic]
  | .liver => [.age, .gender, .liver_panel]

/-- The vitals of an ExtractedClinicalRecord, parsed defensively:
an unparseable or absent value is none, never 0. -/
def ClinicalRecord : Type := Feature → Option ℚ

/-- Projection of a record onto the feature list one disease needs. -/
def projectFeatures (rec : ClinicalRecord) (d : Disease) : List (Feature × ℚ) :=
  (requiredFeatures d).filterMap (fun f => (rec f).map (fun v => (f, v)))

/-- A per-disease scoring provider: from the projected feature vector
it returns a categorical prediction, a confidence score and a
future-risk score. -/
def Scorer : Type := Disease → List (Feature × ℚ) → Int × ℚ × ℚ

/-- Modelled from the spec: the Disease Prediction Orchestrator
algorithm for one disease.  If any required feature is null it
short-circuits to the insufficient-data envelope; otherwise it invokes
the scoring provider on the projected feature vector and attaches that
vector as features_used. -/
def scoreDisease (scorer : Scorer) (rec : ClinicalRecord) (d : Disease) :
    DiseasePrediction :=
  if (requiredFeatures d).all (fun f => (rec f).isSome) then
    let fv := projectFeatures rec d
    let r := scorer d fv
    { prediction := r.1, confidence := some r.2.1,
      future_risk := some r.2.2, features_used := fv }
  else insufficientPrediction

/-- Modelled from the spec: the full orchestrator output, one envelope
per supported disease, each disease scored independently. -/
def orchestrate (scorer : Scorer) (rec : ClinicalRecord) :
    Disease → DiseasePrediction :=
  fun d => scoreDisease scorer rec d

/-! ## Feature extractor BMI derivation (backend, not in src) -/

/-- Rounding to one decimal place, as the extractor applies to the
computed BMI. -/
def roundTo1 (q : ℚ) : ℚ := (jsRound (q * 10) : ℚ) / 10

/-- Modelled from the spec: the feature extractor computes bmi from
height and weight when both are present and bmi itself was not already
extracted directly; the computed value is weight over squared height
in metres, rounded to one decimal place. -/
def deriveBmi (height_cm weight_kg explicitBmi : Option ℚ) : Option ℚ :=
  match explicitBmi with
  | some b => some b
  | none =>
    match height_cm, weight_kg with
    | some h, some w => some (roundTo1 (w / (h / 100) ^ 2))
    | _, _ => none

/-! ## Persistence and dedup service (backend, not in src) -/

/-- Outcome of one upload attempt at the persistence boundary. -/
inductive UploadOutcome
  | committed
  | duplicate
deriving DecidableEq, Repr

/-- Modelled from the spec: the atomic check-and-insert on the
prescription_serial uniqueness constraint.  The storage layer
serializes attempts, so each attempt sees the store left by all
earlier committers: a serial already present is rejected as a
duplicate, otherwise the record is inserted. -/
def commitStep (store : List String) (serial : String) :
    List String × UploadOutcome :=
  if serial ∈ store then (store, .duplicate) else (serial :: store, .committed)

/-- Modelled from the spec: the resolution of N simultaneous upload
attempts.  Because the constraint check is atomic, any interleaving is
equivalent to some serialization of the atomic steps; this function
runs one such serialization and collects each attempt's outcome. -/
def runUploads (store : List String) : List String → List String × List UploadOutcome
  | [] => (store, [])
  | s :: rest =>
    let r := commitStep store s
    let t := runUploads r.1 rest
    (t.1, r.2 :: t.2)

/-! ## Error taxonomy and upload endpoint statuses -/

/-- The pipeline error taxonomy of the spec. -/
inductive PipelineError
  | duplicatePrescription
  | missingRequiredField
  | invalidDocument
  | ocrUnavailable
  | modelUnavailable
  | authExpired
deriving DecidableEq, Repr

/-- Modelled from the spec: the HTTP status the upload endpoint
produces for each error kind (409 duplicate, 400 missing field or
invalid document, 401 expired or absent auth, 5xx unavailable
collaborators; 503 is the concrete 5xx code used here). -/
def errorStatus : PipelineError → Nat
  | .duplicatePrescription => 409
  | .missingRequiredField => 400
  | .invalidDocument => 400
  | .ocrUnavailable => 503
  | .modelUnavailable => 503
  | .authExpired => 401

/-- How the receptionist upload handler classifies a failed request. -/
inductive UploadErrorView
  | duplicateWarning
  | badRequestDetail
  | sessionExpired
  | serverError
  | unreachable
deriving DecidableEq, Repr

/-- The error branch of handleRunAnalysis in the receptionist portal:
given the HTTP status of the failed response (none when the server was
not reachable), the handler picks the message kind, and the analysis
result held by the component afterwards (the handler clears it before
the request and clears it again explicitly on 409). -/
def handleRunAnalysisFailure (status : Option Nat) :
    UploadErrorView × Option (Disease → DiseasePrediction) :=
  match status with
  | some s =>
    if s = 409 then (.duplicateWarning, none)
    else if s = 400 then (.badRequestDetail, none)
    else if s = 401 then (.sessionExpired, none)
    else (.serverError, none)
  | none => (.unreachable, none)

/-! ## History pagination (backend, not in src) -/

/-- The paginated history response envelope; it carries exactly the
fields data, page, limit, total_pages, total_records, has_next and
has_prev. -/
structure PageResponse (α : Type) where
  data : List α
  page : Nat
  limit : Nat
  total_pages : Nat
  total_records : Nat
  has_next : Bool
  has_prev : Bool
deriving Repr

/-- Modelled from the spec: the paginated read over committed
PrescriptionRecords.  Records arrive already sorted by created_at
descending; the page parameters select a window, total_pages is the
ceiling of the record count over the limit, and the has_next and
has_prev flags describe the neighbours of the current page. -/
def paginate {α : Type} (records : List α) (page limit : Nat) :
    PageResponse α :=
  let total := records.length
  let pages := (total + limit - 1) / limit
  { data := (records.drop ((page - 1) * limit)).take limit
    page := page
    limit := limit
    total_pages := pages
    total_records := total
    has_next := decide (page < pages)
    has_prev := decide (1 < page) }

/-! ## C1 -/

/-- C1: for every disease, if any feature in that disease's required
feature list is null in the record, the orchestrator emits exactly the
envelope with prediction -1, null confidence, null future risk and no
features used.  The record and the scorer are arbitrary, so this holds
regardless of whether the feature sets of the other diseases are
sufficient. -/
theorem C1_insufficient_feature_short_circuit
    (scorer : Scorer) (rec : ClinicalRecord) (d : Disease) (f : Feature)
    (hf : f ∈ requiredFeatures d) (hnull : rec f = none) :
    orchestrate scorer rec d = insufficientPrediction := by
  have hfail : ¬ ((requiredFeatures d).all (fun g => (rec g).isSome) = true) := by
    simp only [List.all_eq_true]
    intro hall
    have h := hall f hf
    rw [hnull] at h
    simp at h
  simp [orchestrate, scoreDisease, hfail]

/-- A record missing its age but carrying every other vital. -/
def recMissingAge : ClinicalRecord :=
  fun f => match f with
  | .age => none
  | _ => some 1

/-- A trivial scoring provider used to instantiate the orchestrator. -/
def constScorer : Scorer := fun _ _ => (0, 9/10, 1/10)

/-- C1 witness: a record with a null age is scored as insufficient for
obesity. -/
theorem C1_witness :
    orchestrate constScorer recMissingAge Disease.obesity = insufficientPrediction :=
  C1_insufficient_feature_short_circuit constScorer recMissingAge
    Disease.obesity Feature.age (by decide) rfl

/-! ## C2 -/

/-- Once the serial is committed, every later attempt with that serial
is rejected as a duplicate and the store is unchanged. -/
theorem runUploads_after_commit (store : List String) (serial : String)
    (h : serial ∈ store) (n : Nat) :
    runUploads store (List.replicate n serial) =
      (store, List.replicate n UploadOutcome.duplicate) := by
  induction n with
  | zero => simp [runUploads]
  | succ n ih => simp [List.replicate_succ, runUploads, commitStep, h, ih]

/-- C2: for a serial not yet in storage and N simultaneous upload
attempts carrying that serial, exactly one attempt commits, every other
attempt observes a duplicate rejection, and storage afterwards holds
exactly one record with that serial. -/
theorem C2_dedup_exactly_one_commit (store : List String) (serial : String)
    (n : Nat) (hnew : serial ∉ store) (hn : 0 < n) :
    (runUploads store (List.replicate n serial)).2.count UploadOutcome.committed = 1 ∧
    (runUploads store (List.replicate n serial)).2.count UploadOutcome.duplicate = n - 1 ∧
    (runUploads store (List.replicate n serial)).1.count serial = 1 := by
  obtain ⟨m, rfl⟩ : ∃ m, n = m + 1 := ⟨n - 1, by omega⟩
  have hmem : serial ∈ serial :: store := List.mem_cons_self serial store
  have hrun : runUploads store (List.replicate (m + 1) serial) =
      (serial :: store,
        UploadOutcome.committed :: List.replicate m UploadOutcome.duplicate) := by
    simp [List.replicate_succ, runUploads, commitStep, hnew,
      runUploads_after_commit (serial :: store) serial hmem m]
  rw [hrun]
  refine ⟨?_, ?_, ?_⟩
  · simp [List.count_cons, List.count_replicate]
  · simp [List.count_cons, List.count_replicate]
  · have h0 : store.count serial = 0 := List.count_eq_zero.mpr hnew
    simp [List.count_cons, h0]

/-- C2 witness: three simultaneous attempts on the serial RX1 over an
empty store give one commit, two duplicates and a single stored
record. -/
theorem C2_witness :
    (runUploads [] (List.replicate 3 "RX1")).2.count UploadOutcome.committed = 1 ∧
    (runUploads [] (List.replicate 3 "RX1")).2.count UploadOutcome.duplicate = 3 - 1 ∧
    (runUploads [] (List.replicate 3 "RX1")).1.count "RX1" = 1 :=
  C2_dedup_exactly_one_commit [] "RX1" 3 (by simp) (by decide)

/-! ## C3 -/

/-- C3: both safePercent helpers treat a numeric value at most 1
(including 0) as a probability, rendering its rounded product with 100
followed by a percent sign, and a value above 1 as an already-scaled
percentage, rendering it rounded with a percent sign. -/
theorem C3_safePercent_normalization (v : ℚ) :
    (v ≤ 1 →
      Patient.safePercent (some v) = percentString (jsRound (v * 100)) ∧
      Doctor.safePercent (some v) = percentString (jsRound (v * 100))) ∧
    (1 < v →
      Patient.safePercent (some v) = percentString (jsRound v) ∧
      Doctor.safePercent (some v) = percentString (jsRound v)) := by
  constructor
  · intro h
    have h1 : ¬ (1 < v) := not_lt.mpr h
    simp [Patient.safePercent, Doctor.safePercent, h1]
  · intro h
    simp [Patient.safePercent, Doctor.safePercent, h]

/-- C3 witness: the probability 0 renders as its product with 100 and
the pre-scaled value 75/2 renders rounded as is. -/
theorem C3_witness :
    ((0 : ℚ) ≤ 1 ∧
      Patient.safePercent (some 0) = percentString (jsRound (0 * 100))) ∧
    ((1 : ℚ) < 75/2 ∧
      Doctor.safePercent (some (75/2)) = percentString (jsRound (75/2))) :=
  ⟨⟨by norm_num, ((C3_safePercent_normalization 0).1 (by norm_num)).1⟩,
   ⟨by norm_num, ((C3_safePercent_normalization (75/2)).2 (by norm_num)).2⟩⟩

/-! ## C4 -/

/-- C4: the per-disease label helpers realize the fixed category-code
meanings - obesity 0 normal weight, 1 obese, 2 overweight,
3 underweight; diabetes, liver and hypertension 0 negative and
1 positive - and each of the four maps -1, and only -1, to the
insufficient-data label. -/
theorem C4_label_codes :
    (obesityLabel 0 = "Normal weight" ∧ obesityLabel 1 = "Obese" ∧
      obesityLabel 2 = "Overweight" ∧ obesityLabel 3 = "Underweight") ∧
    (diabetesLabel 0 = "No Diabetes" ∧ diabetesLabel 1 = "Diabetes Detected") ∧
    (liverLabel 0 = "No Liver Disease" ∧ liverLabel 1 = "Liver Disease Detected") ∧
    (hypertensionLabel 0 = "Low Cardiovascular Risk" ∧
      hypertensionLabel 1 = "High Cardiovascular Risk") ∧
    (∀ p : Int,
      (obesityLabel p = "Insufficient Data" ↔ p = -1) ∧
      (diabetesLabel p = "Insufficient Data" ↔ p = -1) ∧
      (liverLabel p = "Insufficient Data" ↔ p = -1) ∧
      (hypertensionLabel p = "Insufficient Data" ↔ p = -1)) := by
  refine ⟨by decide, by decide, by decide, by decide, ?_⟩
  intro p
  refine ⟨?_, ?_, ?_, ?_⟩
  · unfold obesityLabel
    split_ifs <;> simp_all
  · unfold diabetesLabel
    split_ifs <;> simp_all
  · unfold liverLabel
    split_ifs <;> simp_all
  · unfold hypertensionLabel
    split_ifs <;> simp_all

/-- C4 witness: at the prediction code -1 the obesity helper renders
the insufficient-data label. -/
theorem C4_witness : obesityLabel (-1) = "Insufficient Data" :=
  ((C4_label_codes.2.2.2.2 (-1)).1).mpr rfl

/-! ## C5 -/

/-- C5 counterexample: both formatGender implementations map an absent
value to a placeholder that is not any casing of unknown, and the
receptionist implementation returns a string that matches neither
prefix unchanged rather than mapping it to other. -/
theorem C5_counterexample :
    Receptionist.formatGender JSValue.absent = "N/A" ∧
    Doctor.formatGender JSValue.absent = "N/A" ∧
    Receptionist.formatGender (JSValue.str "xyz") = "xyz" ∧
    ("N/A" : String) ≠ "unknown" ∧ ("N/A" : String) ≠ "Unknown" ∧
    ("xyz" : String) ≠ "other" ∧ ("xyz" : String) ≠ "Other" := by
  decide

/-- C5 amended: the numeric codes 0 and 1 map to Male and Female, a
string whose lowercase form starts with m or f maps to Male or Female,
an absent value maps to the placeholder N/A, other numbers map to
Other, and for other strings the receptionist helper returns the
string unchanged while the doctor helper, which also trims before
matching, returns Other. -/
theorem C5_formatGender_amended :
    (Receptionist.formatGender (JSValue.num 0) = "Male" ∧
      Doctor.formatGender (JSValue.num 0) = "Male" ∧
      Receptionist.formatGender (JSValue.num 1) = "Female" ∧
      Doctor.formatGender (JSValue.num 1) = "Female" ∧
      Receptionist.formatGender JSValue.absent = "N/A" ∧
      Doctor.formatGender JSValue.absent = "N/A") ∧
    (∀ q : ℚ, q ≠ 0 → q ≠ 1 →
      Receptionist.formatGender (JSValue.num q) = "Other" ∧
      Doctor.formatGender (JSValue.num q) = "Other") ∧
    (∀ s : String, headIs (jsLower s) 'm' = true →
      Receptionist.formatGender (JSValue.str s) = "Male") ∧
    (∀ s : String, headIs (jsLower s) 'm' = false →
      headIs (jsLower s) 'f' = true →
      Receptionist.formatGender (JSValue.str s) = "Female") ∧
    (∀ s : String, headIs (jsLower s) 'm' = false →
      headIs (jsLower s) 'f' = false →
      Receptionist.formatGender (JSValue.str s) = s) ∧
    (∀ s : String, s ≠ "0" → s ≠ "1" →
      headIs (jsTrim (jsLower s)) 'm' = true →
      Doctor.formatGender (JSValue.str s) = "Male") ∧
    (∀ s : String, s ≠ "0" → s ≠ "1" →
      headIs (jsTrim (jsLower s)) 'm' = false →
      headIs (jsTrim (jsLower s)) 'f' = true →
      Doctor.formatGender (JSValue.str s) = "Female") ∧
    (∀ s : String, s ≠ "0" → s ≠ "1" →
      headIs (jsTrim (jsLower s)) 'm' = false →
      headIs (jsTrim (jsLower s)) 'f' = false →
      Doctor.formatGender (JSValue.str s) = "Other") := by
  refine ⟨by decide, ?_, ?_, ?_, ?_, ?_, ?_, ?_⟩
  · intro q hq0 hq1
    constructor <;> simp [Receptionist.formatGender, Doctor.formatGender, hq0, hq1]
  · intro s hm
    simp [Receptionist.formatGender, hm]
  · intro s hm hf
    simp [Receptionist.formatGender, hm, hf]
  · intro s hm hf
    simp [Receptionist.formatGender, hm, hf]
  · intro s hs0 hs1 hm
    simp [Doctor.formatGender, hs0, hs1, hm]
  · intro s hs0 hs1 hm hf
    simp [Doctor.formatGender, hs0, hs1, hm, hf]
  · intro s hs0 hs1 hm hf
    simp [Doctor.formatGender, hs0, hs1, hm, hf]

/-- C5 witness: a capitalised m-prefix string, a padded uppercase
f-prefix string and a non-integral number at their actual outputs. -/
theorem C5_witness :
    Receptionist.formatGender (JSValue.str "Male") = "Male" ∧
    Doctor.formatGender (JSValue.str " FEMALE ") = "Female" ∧
    Receptionist.formatGender (JSValue.num (7/2)) = "Other" :=
  ⟨C5_formatGender_amended.2.2.1 "Male" (by decide),
   C5_formatGender_amended.2.2.2.2.2.2.1 " FEMALE "
     (by decide) (by decide) (by decide) (by decide),
   (C5_formatGender_amended.2.1 (7/2) (by norm_num) (by norm_num)).1⟩

/-! ## C6 -/

/-- C6: with height and weight present and no explicitly extracted
BMI, the extractor derives weight over squared height in metres
rounded to one decimal place; an explicitly extracted BMI is kept as
is; and at height 170 and weight 70 the output is exactly 24.2. -/
theorem C6_bmi_derivation (h w : ℚ) (_hh : 0 < h) :
    deriveBmi (some h) (some w) none = some (roundTo1 (w / (h / 100) ^ 2)) ∧
    (∀ b : ℚ, deriveBmi (some h) (some w) (some b) = some b) ∧
    deriveBmi (some 170) (some 70) none = some (242/10) := by
  refine ⟨rfl, fun b => rfl, ?_⟩
  simp only [deriveBmi, roundTo1, jsRound]
  norm_num

/-- C6 witness: the claimed round trip at height 170 and weight 70. -/
theorem C6_witness :
    (0 : ℚ) < 170 ∧ deriveBmi (some 170) (some 70) none = some (242/10) :=
  ⟨by norm_num, (C6_bmi_derivation 170 70 (by norm_num)).2.2⟩

/-! ## C7 -/

/-- C7: the upload endpoint status mapping is exact - 409 exactly for
a duplicate prescription, 400 exactly for a missing required field or
an invalid document, 401 exactly for expired or absent auth, and the
unavailable-collaborator errors land in the 5xx range - and the
receptionist upload handler surfaces 409 as the duplicate warning with
no analysis result retained, 400 as the detail message, 401 as a
session expiry and 5xx as a server error. -/
theorem C7_error_status_mapping (e : PipelineError) :
    (errorStatus e = 409 ↔ e = PipelineError.duplicatePrescription) ∧
    (errorStatus e = 400 ↔
      (e = PipelineError.missingRequiredField ∨ e = PipelineError.invalidDocument)) ∧
    (errorStatus e = 401 ↔ e = PipelineError.authExpired) ∧
    ((e = PipelineError.ocrUnavailable ∨ e = PipelineError.modelUnavailable) →
      500 ≤ errorStatus e ∧ errorStatus e ≤ 599) ∧
    handleRunAnalysisFailure (some 409) = (UploadErrorView.duplicateWarning, none) ∧
    handleRunAnalysisFailure (some 400) = (UploadErrorView.badRequestDetail, none) ∧
    handleRunAnalysisFailure (some 401) = (UploadErrorView.sessionExpired, none) ∧
    handleRunAnalysisFailure (some 503) = (UploadErrorView.serverError, none) := by
  cases e <;> exact ⟨by decide, by decide, by decide, by decide, rfl, rfl, rfl, rfl⟩

/-- C7 witness: the duplicate error carries status 409 and the OCR
outage maps into the 5xx range. -/
theorem C7_witness :
    errorStatus PipelineError.duplicatePrescription = 409 ∧
    500 ≤ errorStatus PipelineError.ocrUnavailable :=
  ⟨((C7_error_status_mapping PipelineError.duplicatePrescription).1).mpr rfl,
   ((C7_error_status_mapping PipelineError.ocrUnavailable).2.2.2.1 (Or.inl rfl)).1⟩

/-! ## C8 -/

/-- An analysis envelope whose obesity slot is the insufficient-data
envelope while the other three slots carry valid predictions. -/
def gridDropEnv : Disease → DiseasePrediction :=
  fun d => match d with
  | .obesity => insufficientPrediction
  | _ => { prediction := 0, confidence := some (9/10),
           future_risk := some (1/10), features_used := [] }

/-- C8 counterexample: in the upload-result grid an insufficient slot
is dropped from the display, not rendered: with the obesity slot at
prediction -1, no obesity card is rendered. -/
theorem C8_counterexample :
    (gridDropEnv Disease.obesity).prediction = -1 ∧
    Disease.obesity ∉ renderedGrid gridDropEnv := by
  decide

/-- C8 amended: the envelope always carries all four disease slots,
but the upload-result grids render a disease card exactly for the
slots whose prediction is not -1; an insufficient slot is omitted from
the card grid. -/
theorem C8_grid_renders_non_insufficient
    (env : Disease → DiseasePrediction) (d : Disease) :
    d ∈ renderedGrid env ↔ (env d).prediction ≠ -1 := by
  cases d <;> simp [renderedGrid, gridOrder]

/-- C8 witness: a slot with a valid prediction is rendered. -/
theorem C8_witness : Disease.diabetes ∈ renderedGrid gridDropEnv :=
  (C8_grid_renders_non_insufficient gridDropEnv Disease.diabetes).mpr (by decide)

/-! ## C9 -/

/-- C9: the paginated history response carries exactly the fields
data, page, limit, total_pages, total_records, has_next and has_prev
(the PageResponse structure), and over 25 committed records a request
for page 2 with limit 10 returns 10 records with total_pages 3,
has_next true and has_prev true. -/
theorem C9_pagination_shape {α : Type} (records : List α)
    (h : records.length = 25) :
    (paginate records 2 10).data.length = 10 ∧
    (paginate records 2 10).page = 2 ∧
    (paginate records 2 10).limit = 10 ∧
    (paginate records 2 10).total_pages = 3 ∧
    (paginate records 2 10).total_records = 25 ∧
    (paginate records 2 10).has_next = true ∧
    (paginate records 2 10).has_prev = true := by
  simp [paginate, h]

/-- C9 witness: the pagination example over a concrete list of 25
records. -/
theorem C9_witness :
    (paginate (List.replicate 25 (0 : Nat)) 2 10).data.length = 10 ∧
    (paginate (List.replicate 25 (0 : Nat)) 2 10).page = 2 ∧
    (paginate (List.replicate 25 (0 : Nat)) 2 10).limit = 10 ∧
    (paginate (List.replicate 25 (0 : Nat)) 2 10).total_pages = 3 ∧
    (paginate (List.replicate 25 (0 : Nat)) 2 10).total_records = 25 ∧
    (paginate (List.replicate 25 (0 : Nat)) 2 10).has_next = true ∧
    (paginate (List.replicate 25 (0 : Nat)) 2 10).has_prev = true :=
  C9_pagination_shape (List.replicate 25 (0 : Nat)) (by simp)

/-! ## C10 -/

/-- C10: both safeText helpers return their no-data placeholder for an
absent value and for the number -1, return every other value
unchanged, and consequently never return the number -1, so the
sentinel is never shown as a literal number. -/
theorem C10_safeText_sentinel (v : JSValue) :
    ((v = JSValue.absent ∨ v = JSValue.num (-1)) →
      Patient.safeText v = JSValue.str "No data" ∧
      Doctor.safeText v = JSValue.str "—") ∧
    (¬(v = JSValue.absent ∨ v = JSValue.num (-1)) →
      Patient.safeText v = v ∧ Doctor.safeText v = v) ∧
    Patient.safeText v ≠ JSValue.num (-1) ∧
    Doctor.safeText v ≠ JSValue.num (-1) := by
  cases v with
  | absent => simp [Patient.safeText, Doctor.safeText]
  | str s => simp [Patient.safeText, Doctor.safeText]
  | num q => by_cases hq : q = -1 <;> simp [Patient.safeText, Doctor.safeText, hq]

/-- C10 witness: the sentinel -1 renders as the placeholders. -/
theorem C10_witness :
    Patient.safeText (JSValue.num (-1)) = JSValue.str "No data" ∧
    Doctor.safeText (JSValue.num (-1)) = JSValue.str "—" :=
  (C10_safeText_sentinel (JSValue.num (-1))).1 (Or.inr rfl)

end CDSS
